import Mathlib

/- Shallow embedding of src/nodes/ClickHouse/ClickHouse.node.ts.

   Strings are modelled as lists of characters; the JavaScript string
   operations trim, toUpperCase, startsWith and includes become jsTrim,
   jsToUpper, List.isPrefixOf and containsSub.  The execute method and the
   credential test are modelled as functions from the node parameters and a
   database oracle (the outcomes of the client calls) to a trace of client
   events together with the returned value or the propagated error. -/

abbrev Str := List Char

/-- JavaScript String.prototype.trim: drop whitespace from both ends. -/
def jsTrim (s : Str) : Str :=
  ((s.dropWhile Char.isWhitespace).reverse.dropWhile Char.isWhitespace).reverse

/-- JavaScript String.prototype.toUpperCase, character by character. -/
def jsToUpper (s : Str) : Str := s.map Char.toUpper

/-- JavaScript String.prototype.includes: substring test. -/
def containsSub : Str → Str → Bool
  | [], needle => needle.isEmpty
  | c :: rest, needle => needle.isPrefixOf (c :: rest) || containsSub rest needle

def kwSELECT : Str := "SELECT".toList

def kwSHOW : Str := "SHOW".toList

def kwDESCRIBE : Str := "DESCRIBE".toList

def kwDESC : Str := "DESC".toList

def kwLIMIT : Str := "LIMIT".toList

def kwQuery : Str := "query".toList

def kwInsert : Str := "insert".toList

def limitSep : Str := " LIMIT ".toList

/-- Message of the NodeOperationError thrown in read-only mode (line 210). -/
def roErrorMessage : String :=
  "Only SELECT, SHOW, and DESCRIBE queries are allowed in read-only mode"

/-- Message returned by a successful credential test (line 171). -/
def okMessage : String := "Connection successful!"

/-- Line 203 of the source: normalizedQuery = query.trim().toUpperCase(). -/
def normalizedQuery (query : Str) : Str := jsToUpper (jsTrim query)

/-- Lines 204-207: the negated conjunction guarding the read-only throw. -/
def readOnlyRejects (query : Str) : Bool :=
  !(kwSELECT.isPrefixOf (normalizedQuery query)) &&
  !(kwSHOW.isPrefixOf (normalizedQuery query)) &&
  !(kwDESCRIBE.isPrefixOf (normalizedQuery query)) &&
  !(kwDESC.isPrefixOf (normalizedQuery query))

/-- Lines 216-218: append a LIMIT clause when maxResults is positive and the
upper-cased query does not already contain the substring LIMIT. -/
def injectLimit (query : Str) (maxResults : Nat) : Str :=
  if 0 < maxResults ∧ containsSub (jsToUpper query) kwLIMIT = false then
    query ++ limitSep ++ (Nat.repr maxResults).toList
  else query

/-- Errors that can propagate from execute: the NodeOperationError of the
read-only check, or an error raised by a client call. -/
inductive ExecErr where
  | validation (msg : String)
  | db (msg : String)
  deriving DecidableEq

/-- An n8n execution item; json is its payload (type parameter J). -/
structure Item (J : Type) where
  json : J
  deriving DecidableEq

/-- One observable call on the ClickHouse client. -/
inductive ClientEvent (J : Type) where
  | queryEv (text : Str)
  | insertEv (table : Str) (values : List J)
  | closeEv
  deriving DecidableEq

/-- Outcomes of the client calls an execute invocation can make: the query
result (rows or an error), the insert result, and the close result. -/
structure DbOracle (J : Type) where
  queryResult : Except String (List J)
  insertResult : Except String Unit
  closeResult : Except String Unit

/-- Lines 194-242: the body of the try block.  Returns the client events it
performed and either the accumulated returnItems or the thrown error. -/
def tryBody (J : Type) (op queryText : Str) (readOnlyMode : Bool)
    (maxResults : Nat) (table : Str) (input : List (Item J)) (db : DbOracle J) :
    List (ClientEvent J) × Except ExecErr (List (Item J)) :=
  if op = kwQuery then
    if readOnlyMode && readOnlyRejects queryText then
      ([], Except.error (ExecErr.validation roErrorMessage))
    else
      match db.queryResult with
      | Except.error m =>
          ([ClientEvent.queryEv (injectLimit queryText maxResults)],
           Except.error (ExecErr.db m))
      | Except.ok rows =>
          ([ClientEvent.queryEv (injectLimit queryText maxResults)],
           Except.ok (rows.map fun row => ⟨row⟩))
  else if op = kwInsert then
    match db.insertResult with
    | Except.error m =>
        ([ClientEvent.insertEv table (input.map Item.json)],
         Except.error (ExecErr.db m))
    | Except.ok _ =>
        ([ClientEvent.insertEv table (input.map Item.json)], Except.ok [])
  else ([], Except.ok [])

/-- Lines 187-251: the execute method after the client is created.  The catch
block closes the client and rethrows (a failing close replaces the error); the
success path closes the client (a failing close propagates) and then returns
prepareOutputData(returnItems), that is, the one-branch list [returnItems]. -/
def executeModel (J : Type) (op queryText : Str) (readOnlyMode : Bool)
    (maxResults : Nat) (table : Str) (input : List (Item J)) (db : DbOracle J) :
    List (ClientEvent J) × Except ExecErr (List (List (Item J))) :=
  match tryBody J op queryText readOnlyMode maxResults table input db with
  | (events, Except.error e) =>
      match db.closeResult with
      | Except.error m =>
          (events ++ [ClientEvent.closeEv], Except.error (ExecErr.db m))
      | Except.ok _ => (events ++ [ClientEvent.closeEv], Except.error e)
  | (events, Except.ok items) =>
      match db.closeResult with
      | Except.error m =>
          (events ++ [ClientEvent.closeEv], Except.error (ExecErr.db m))
      | Except.ok _ => (events ++ [ClientEvent.closeEv], Except.ok [items])

/-- Recognizer for the close event. -/
def isCloseEvent {J : Type} : ClientEvent J → Bool
  | ClientEvent.closeEv => true
  | _ => false

/-- Number of close calls in a trace. -/
def closeCount {J : Type} (tr : List (ClientEvent J)) : Nat :=
  (tr.filter isCloseEvent).length

/-- The two statuses an INodeCredentialTestResult can carry. -/
inductive CredStatus where
  | OK
  | Error
  deriving DecidableEq

/-- An INodeCredentialTestResult: status plus message. -/
structure CredResult where
  status : CredStatus
  message : String
  deriving DecidableEq

/-- One observable step of the credential test. -/
inductive CredEvent where
  | createEv
  | queryEv
  | closeEv
  deriving DecidableEq

/-- Outcomes of the three client calls the credential test can make. -/
structure CredOracle where
  createResult : Except String Unit
  queryResult : Except String Unit
  closeResult : Except String Unit

/-- Lines 141-173: clickhouseConnectionTest.  createClient, the SELECT 1
probe, and close all sit inside the try block; any failure is caught and
reported as status Error with the message of the error, and the connection is
not closed when an earlier step has already thrown. -/
def clickhouseConnectionTest (db : CredOracle) : List CredEvent × CredResult :=
  match db.createResult with
  | Except.error m => ([CredEvent.createEv], ⟨CredStatus.Error, m⟩)
  | Except.ok _ =>
      match db.queryResult with
      | Except.error m =>
          ([CredEvent.createEv, CredEvent.queryEv], ⟨CredStatus.Error, m⟩)
      | Except.ok _ =>
          match db.closeResult with
          | Except.error m =>
              ([CredEvent.createEv, CredEvent.queryEv, CredEvent.closeEv],
               ⟨CredStatus.Error, m⟩)
          | Except.ok _ =>
              ([CredEvent.createEv, CredEvent.queryEv, CredEvent.closeEv],
               ⟨CredStatus.OK, okMessage⟩)

/-- Recognizer for the close step of the credential test. -/
def isCredClose : CredEvent → Bool
  | CredEvent.closeEv => true
  | _ => false

/-- Number of close calls in a credential-test trace. -/
def credCloseCount (tr : List CredEvent) : Nat :=
  (tr.filter isCredClose).length

/- Concrete instances used to exercise the model on closed inputs. -/

def qDrop : Str := "DROP TABLE product".toList

def qSelOne : Str := "SELECT 1".toList

def tblProduct : Str := "product".toList

def opDelete : Str := "delete".toList

def twoItems : List (Item Nat) := [⟨1⟩, ⟨2⟩]

def dbAllOK : DbOracle Nat := ⟨Except.ok [], Except.ok (), Except.ok ()⟩

def dbRows : DbOracle Nat := ⟨Except.ok [1, 2], Except.ok (), Except.ok ()⟩

def msgQueryFail : String := "query failed"

def msgInsertFail : String := "insert failed"

def msgCloseFail : String := "close failed"

def dbQueryCloseFail : DbOracle Nat :=
  ⟨Except.error msgQueryFail, Except.ok (), Except.error msgCloseFail⟩

def dbInsertCloseFail : DbOracle Nat :=
  ⟨Except.ok [], Except.error msgInsertFail, Except.error msgCloseFail⟩

def boomMsg : String := "socket hang up"

def credAllOK : CredOracle := ⟨Except.ok (), Except.ok (), Except.ok ()⟩

def credCloseFail : CredOracle := ⟨Except.ok (), Except.ok (), Except.error boomMsg⟩

def credProbeFail : CredOracle := ⟨Except.ok (), Except.error boomMsg, Except.ok ()⟩

/- Helper lemmas shared by the claim theorems. -/

/-- The try block itself never closes the connection. -/
theorem tryBody_no_close (J : Type) (op queryText : Str) (readOnlyMode : Bool)
    (maxResults : Nat) (table : Str) (input : List (Item J)) (db : DbOracle J) :
    closeCount (tryBody J op queryText readOnlyMode maxResults table input db).1 = 0 := by
  unfold tryBody
  split
  · split
    · rfl
    · cases db.queryResult <;> simp [closeCount, isCloseEvent]
  · split
    · cases db.insertResult <;> simp [closeCount, isCloseEvent]
    · rfl

/-- Rejection flag spelled out as the four prefix tests of the claim. -/
theorem readOnlyRejects_eq_true_iff (q : Str) :
    readOnlyRejects q = true ↔
      ¬(kwSELECT.isPrefixOf (normalizedQuery q) = true ∨
        kwSHOW.isPrefixOf (normalizedQuery q) = true ∨
        kwDESCRIBE.isPrefixOf (normalizedQuery q) = true ∨
        kwDESC.isPrefixOf (normalizedQuery q) = true) := by
  unfold readOnlyRejects
  cases kwSELECT.isPrefixOf (normalizedQuery q) <;>
    cases kwSHOW.isPrefixOf (normalizedQuery q) <;>
      cases kwDESCRIBE.isPrefixOf (normalizedQuery q) <;>
        cases kwDESC.isPrefixOf (normalizedQuery q) <;> simp

/-- Trace of an accepted query: the rewritten text, then the close. -/
theorem executeModel_query_trace (J : Type) (queryText : Str) (readOnlyMode : Bool)
    (maxResults : Nat) (table : Str) (input : List (Item J)) (db : DbOracle J)
    (h : (readOnlyMode && readOnlyRejects queryText) = false) :
    (executeModel J kwQuery queryText readOnlyMode maxResults table input db).1 =
      [ClientEvent.queryEv (injectLimit queryText maxResults), ClientEvent.closeEv] := by
  unfold executeModel tryBody
  rw [if_pos rfl, if_neg (by simp [h])]
  cases db.queryResult <;> cases db.closeResult <;> simp

/-- Result of an accepted query, as a function of the database outcome. -/
theorem executeModel_query_snd_accepted (J : Type) (queryText : Str)
    (readOnlyMode : Bool) (maxResults : Nat) (table : Str) (input : List (Item J))
    (db : DbOracle J) (h : (readOnlyMode && readOnlyRejects queryText) = false)
    (hclose : db.closeResult = Except.ok ()) :
    (executeModel J kwQuery queryText readOnlyMode maxResults table input db).2 =
      match db.queryResult with
      | Except.error m => Except.error (ExecErr.db m)
      | Except.ok rows => Except.ok [rows.map fun row => (⟨row⟩ : Item J)] := by
  unfold executeModel tryBody
  rw [if_pos rfl, if_neg (by simp [h])]
  cases db.queryResult <;> simp [hclose]

/-- Behavior of a query rejected by read-only mode. -/
theorem executeModel_query_rejected (J : Type) (queryText : Str) (maxResults : Nat)
    (table : Str) (input : List (Item J)) (db : DbOracle J)
    (h : readOnlyRejects queryText = true)
    (hclose : db.closeResult = Except.ok ()) :
    executeModel J kwQuery queryText true maxResults table input db =
      ([ClientEvent.closeEv], Except.error (ExecErr.validation roErrorMessage)) := by
  unfold executeModel tryBody
  rw [if_pos rfl, if_pos (by simp [h])]
  simp [hclose]

/-- C1: with operation = query and read-only mode enabled (and a close call
that itself succeeds), execute raises a ValidationError if and only if the
trimmed, upper-cased query does not start with SELECT, SHOW, DESCRIBE or
DESC; when it does start with one of them, the query is sent unchanged apart
from the possible LIMIT injection. -/
theorem c1_readonly_validation (J : Type) (queryText : Str) (maxResults : Nat)
    (table : Str) (input : List (Item J)) (db : DbOracle J)
    (hclose : db.closeResult = Except.ok ()) :
    ((∃ m, (executeModel J kwQuery queryText true maxResults table input db).2 =
        Except.error (ExecErr.validation m)) ↔
      ¬(kwSELECT.isPrefixOf (normalizedQuery queryText) = true ∨
        kwSHOW.isPrefixOf (normalizedQuery queryText) = true ∨
        kwDESCRIBE.isPrefixOf (normalizedQuery queryText) = true ∨
        kwDESC.isPrefixOf (normalizedQuery queryText) = true))
    ∧ ((kwSELECT.isPrefixOf (normalizedQuery queryText) = true ∨
        kwSHOW.isPrefixOf (normalizedQuery queryText) = true ∨
        kwDESCRIBE.isPrefixOf (normalizedQuery queryText) = true ∨
        kwDESC.isPrefixOf (normalizedQuery queryText) = true) →
      (executeModel J kwQuery queryText true maxResults table input db).1 =
        [ClientEvent.queryEv (injectLimit queryText maxResults), ClientEvent.closeEv]) := by
  have hiff := readOnlyRejects_eq_true_iff queryText
  cases hrej : readOnlyRejects queryText
  · have hdisj : (kwSELECT.isPrefixOf (normalizedQuery queryText) = true ∨
        kwSHOW.isPrefixOf (normalizedQuery queryText) = true ∨
        kwDESCRIBE.isPrefixOf (normalizedQuery queryText) = true ∨
        kwDESC.isPrefixOf (normalizedQuery queryText) = true) := by
      by_contra hc
      exact absurd (hiff.mpr hc) (by simp [hrej])
    refine ⟨⟨fun ⟨m, hm⟩ => ?_, fun hnd => absurd hdisj hnd⟩, fun _ => ?_⟩
    · rw [executeModel_query_snd_accepted J queryText true maxResults table input db
        (by simp [hrej]) hclose] at hm
      cases hq : db.queryResult with
      | error m2 => rw [hq] at hm; simp at hm
      | ok rows => rw [hq] at hm; simp at hm
    · exact executeModel_query_trace J queryText true maxResults table input db
        (by simp [hrej])
  · have hmodel := executeModel_query_rejected J queryText maxResults table input db
      hrej hclose
    refine ⟨⟨fun _ => hiff.mp hrej, fun _ => ⟨roErrorMessage, by rw [hmodel]⟩⟩,
      fun hdisj => absurd hdisj (hiff.mp hrej)⟩

/-- C1 witness: a DROP statement under read-only mode yields a
ValidationError. -/
theorem c1_readonly_validation_witness :
    ∃ m, (executeModel Nat kwQuery qDrop true 0 tblProduct [] dbAllOK).2 =
      Except.error (ExecErr.validation m) :=
  (c1_readonly_validation Nat qDrop 0 tblProduct [] dbAllOK rfl).1.mpr (by decide)

/-- C2: the executed query text equals the original text followed by a LIMIT
clause exactly when maxResults is positive and the upper-cased text does not
already contain LIMIT; in every other case the text is sent unchanged. -/
theorem c2_limit_injection (J : Type) (queryText : Str) (maxResults : Nat)
    (table : Str) (input : List (Item J)) (db : DbOracle J) :
    (0 < maxResults → containsSub (jsToUpper queryText) kwLIMIT = false →
      (executeModel J kwQuery queryText false maxResults table input db).1 =
        [ClientEvent.queryEv
          (queryText ++ limitSep ++ (Nat.repr maxResults).toList),
         ClientEvent.closeEv])
    ∧ (maxResults = 0 ∨ containsSub (jsToUpper queryText) kwLIMIT = true →
      (executeModel J kwQuery queryText false maxResults table input db).1 =
        [ClientEvent.queryEv queryText, ClientEvent.closeEv]) := by
  constructor
  · intro hpos hns
    rw [executeModel_query_trace J queryText false maxResults table input db (by simp)]
    unfold injectLimit
    rw [if_pos ⟨hpos, hns⟩]
  · intro hcase
    rw [executeModel_query_trace J queryText false maxResults table input db (by simp)]
    unfold injectLimit
    have hni : ¬(0 < maxResults ∧ containsSub (jsToUpper queryText) kwLIMIT = false) := by
      rintro ⟨h1, h2⟩
      rcases hcase with h0 | hT
      · omega
      · rw [hT] at h2; cases h2
    rw [if_neg hni]

/-- C2 witness: SELECT 1 with maxResults 5 is sent with LIMIT 5 appended. -/
theorem c2_limit_injection_witness :
    (executeModel Nat kwQuery qSelOne false 5 tblProduct [] dbAllOK).1 =
      [ClientEvent.queryEv (qSelOne ++ limitSep ++ (Nat.repr 5).toList),
       ClientEvent.closeEv] :=
  (c2_limit_injection Nat qSelOne 5 tblProduct [] dbAllOK).1 (by decide) (by decide)

/-- C3: every run of the execute model, on any operation and any database
outcome, performs exactly one close call. -/
theorem c3_close_exactly_once (J : Type) (op queryText : Str) (readOnlyMode : Bool)
    (maxResults : Nat) (table : Str) (input : List (Item J)) (db : DbOracle J) :
    closeCount (executeModel J op queryText readOnlyMode maxResults table input db).1 = 1 := by
  have h0 := tryBody_no_close J op queryText readOnlyMode maxResults table input db
  unfold executeModel
  generalize htb : tryBody J op queryText readOnlyMode maxResults table input db = t
  rw [htb] at h0
  obtain ⟨events, res⟩ := t
  simp only at h0
  cases res with
  | error e =>
      simp [closeCount, List.filter_append, isCloseEvent] at h0
      cases hcl : db.closeResult <;>
        simp [closeCount, List.filter_append, isCloseEvent] <;> exact h0
  | ok items =>
      simp [closeCount, List.filter_append, isCloseEvent] at h0
      cases hcl : db.closeResult <;>
        simp [closeCount, List.filter_append, isCloseEvent] <;> exact h0

/-- C4: the insert operation performs exactly one bulk insert carrying the
json payloads of all input items in input order against the named table, and
on success returns zero output items. -/
theorem c4_insert_single_bulk (J : Type) (queryText : Str) (readOnlyMode : Bool)
    (maxResults : Nat) (table : Str) (input : List (Item J)) (db : DbOracle J)
    (hins : db.insertResult = Except.ok ()) (hclose : db.closeResult = Except.ok ()) :
    executeModel J kwInsert queryText readOnlyMode maxResults table input db =
      ([ClientEvent.insertEv table (input.map Item.json), ClientEvent.closeEv],
       Except.ok [[]]) := by
  unfold executeModel tryBody
  rw [if_neg (by decide), if_pos rfl]
  simp [hins, hclose]

/-- C4 witness: inserting two concrete items into the product table. -/
theorem c4_insert_single_bulk_witness :
    executeModel Nat kwInsert [] false 0 tblProduct twoItems dbAllOK =
      ([ClientEvent.insertEv tblProduct (twoItems.map Item.json),
        ClientEvent.closeEv], Except.ok [[]]) :=
  c4_insert_single_bulk Nat [] false 0 tblProduct twoItems dbAllOK rfl rfl

/-- C5 counterexample: an insert of two items returns the empty item list,
not the input list echoed through. -/
theorem c5_counterexample :
    (executeModel Nat kwInsert [] false 0 tblProduct twoItems dbAllOK).2 =
      Except.ok [[]]
    ∧ ([([] : List (Item Nat))] : List (List (Item Nat))) ≠ [twoItems] := by
  constructor
  · rfl
  · decide

/-- C5 (amended): for operation = insert the items returned to the host form
the empty list, whatever the input items were. -/
theorem c5_insert_empty_output (J : Type) (queryText : Str) (readOnlyMode : Bool)
    (maxResults : Nat) (table : Str) (input : List (Item J)) (db : DbOracle J)
    (hins : db.insertResult = Except.ok ()) (hclose : db.closeResult = Except.ok ()) :
    (executeModel J kwInsert queryText readOnlyMode maxResults table input db).2 =
      Except.ok [[]] := by
  unfold executeModel tryBody
  rw [if_neg (by decide), if_pos rfl]
  simp [hins, hclose]

/-- C5 witness: the amended statement at the concrete two-item input. -/
theorem c5_insert_empty_output_witness :
    (executeModel Nat kwInsert [] false 0 tblProduct twoItems dbAllOK).2 =
      Except.ok [[]] :=
  c5_insert_empty_output Nat [] false 0 tblProduct twoItems dbAllOK rfl rfl

/-- C6: when the database returns a row list for a query, the output is one
item per row carrying that row as payload, in the same order. -/
theorem c6_query_row_mapping (J : Type) (queryText : Str) (maxResults : Nat)
    (table : Str) (input : List (Item J)) (db : DbOracle J) (rows : List J)
    (hq : db.queryResult = Except.ok rows) (hclose : db.closeResult = Except.ok ()) :
    (executeModel J kwQuery queryText false maxResults table input db).2 =
      Except.ok [rows.map fun row => (⟨row⟩ : Item J)] := by
  unfold executeModel tryBody
  rw [if_pos rfl, if_neg (by simp)]
  simp [hq, hclose]

/-- C6 witness: two concrete rows become two items in the same order. -/
theorem c6_query_row_mapping_witness :
    (executeModel Nat kwQuery qSelOne false 0 tblProduct [] dbRows).2 =
      Except.ok [[⟨1⟩, ⟨2⟩]] :=
  c6_query_row_mapping Nat qSelOne 0 tblProduct [] dbRows [1, 2] rfl rfl

/-- C7 counterexample: createClient and the SELECT 1 probe both succeed, yet
the reported status is Error because the close inside the try block fails;
the claim requires status OK whenever connecting and the probe succeed. -/
theorem c7_counterexample :
    credCloseFail.createResult = Except.ok () ∧
    credCloseFail.queryResult = Except.ok () ∧
    (clickhouseConnectionTest credCloseFail).2.status = CredStatus.Error ∧
    CredStatus.Error ≠ CredStatus.OK :=
  ⟨rfl, rfl, rfl, fun h => nomatch h⟩

/-- C7 (amended): the credential test returns status OK exactly when the
client creation, the SELECT 1 probe and the close all succeed; when any of
these steps fails (with the non-empty message real errors carry) the status
is Error with a non-empty message, and no exception escapes: the result is
always one of the two statuses. -/
theorem c7_cred_status (db : CredOracle)
    (h1 : ∀ m, db.createResult = Except.error m → m ≠ "")
    (h2 : ∀ m, db.queryResult = Except.error m → m ≠ "")
    (h3 : ∀ m, db.closeResult = Except.error m → m ≠ "") :
    ((clickhouseConnectionTest db).2.status = CredStatus.OK ↔
      (db.createResult = Except.ok () ∧ db.queryResult = Except.ok () ∧
        db.closeResult = Except.ok ()))
    ∧ ((clickhouseConnectionTest db).2.status = CredStatus.Error →
        (clickhouseConnectionTest db).2.message ≠ "") := by
  obtain ⟨c, q, cl⟩ := db
  cases c with
  | error m =>
      constructor
      · constructor
        · intro h
          exact nomatch h
        · rintro ⟨hc, -, -⟩
          exact nomatch hc
      · intro _
        exact h1 m rfl
  | ok u =>
      cases u
      cases q with
      | error m =>
          constructor
          · constructor
            · intro h
              exact nomatch h
            · rintro ⟨-, hq, -⟩
              exact nomatch hq
          · intro _
            exact h2 m rfl
      | ok u2 =>
          cases u2
          cases cl with
          | error m =>
              constructor
              · constructor
                · intro h
                  exact nomatch h
                · rintro ⟨-, -, hcl⟩
                  exact nomatch hcl
              · intro _
                exact h3 m rfl
          | ok u3 =>
              cases u3
              constructor
              · constructor
                · intro _
                  exact ⟨rfl, rfl, rfl⟩
                · intro _
                  rfl
              · intro h
                exact nomatch h

/-- C7 witness: the amended statement at the all-successful oracle. -/
theorem c7_cred_status_witness :
    ((clickhouseConnectionTest credAllOK).2.status = CredStatus.OK ↔
      (credAllOK.createResult = Except.ok () ∧ credAllOK.queryResult = Except.ok () ∧
        credAllOK.closeResult = Except.ok ()))
    ∧ ((clickhouseConnectionTest credAllOK).2.status = CredStatus.Error →
        (clickhouseConnectionTest credAllOK).2.message ≠ "") :=
  c7_cred_status credAllOK (fun _ h => nomatch h) (fun _ h => nomatch h)
    (fun _ h => nomatch h)

/-- C8 counterexample: when the SELECT 1 probe fails, the credential test
returns with zero close calls, so the connection is not closed before the
operation returns. -/
theorem c8_counterexample :
    credCloseCount (clickhouseConnectionTest credProbeFail).1 = 0 ∧ (0 : Nat) ≠ 1 := by
  exact ⟨rfl, by decide⟩

/-- C8 (amended): the credential test closes the connection exactly once when
client creation and the SELECT 1 probe both succeed, and not at all
otherwise; an error raised by the close itself is not swallowed but turns the
reported result into status Error carrying the close error message. -/
theorem c8_close_behavior (db : CredOracle) :
    (credCloseCount (clickhouseConnectionTest db).1 = 1 ↔
      (db.createResult = Except.ok () ∧ db.queryResult = Except.ok ()))
    ∧ (∀ m, db.createResult = Except.ok () → db.queryResult = Except.ok () →
        db.closeResult = Except.error m →
        (clickhouseConnectionTest db).2 = ⟨CredStatus.Error, m⟩) := by
  obtain ⟨c, q, cl⟩ := db
  cases c with
  | error m =>
      constructor
      · constructor
        · intro h
          exact nomatch h
        · rintro ⟨hc, -⟩
          exact nomatch hc
      · intro m2 hc
        exact nomatch hc
  | ok u =>
      cases u
      cases q with
      | error m =>
          constructor
          · constructor
            · intro h
              exact nomatch h
            · rintro ⟨-, hq⟩
              exact nomatch hq
          · intro m2 _ hq
            exact nomatch hq
      | ok u2 =>
          cases u2
          cases cl with
          | error m =>
              constructor
              · constructor
                · intro _
                  exact ⟨rfl, rfl⟩
                · intro _
                  rfl
              · intro m2 _ _ hcl
                cases hcl
                rfl
          | ok u3 =>
              cases u3
              constructor
              · constructor
                · intro _
                  exact ⟨rfl, rfl⟩
                · intro _
                  rfl
              · intro m2 _ _ hcl
                exact nomatch hcl

/-- C8 witness: the amended statement at the failing-close oracle: one close
call, status Error with the close error message. -/
theorem c8_close_behavior_witness :
    credCloseCount (clickhouseConnectionTest credCloseFail).1 = 1
    ∧ (clickhouseConnectionTest credCloseFail).2 = ⟨CredStatus.Error, boomMsg⟩ :=
  ⟨(c8_close_behavior credCloseFail).1.mpr ⟨rfl, rfl⟩,
   (c8_close_behavior credCloseFail).2 boomMsg rfl rfl rfl⟩

/-- C9: any operation value other than query and insert performs no database
request, closes the connection, and returns the empty output item list with
no error. -/
theorem c9_unknown_operation (J : Type) (op queryText : Str) (readOnlyMode : Bool)
    (maxResults : Nat) (table : Str) (input : List (Item J)) (db : DbOracle J)
    (hq : op ≠ kwQuery) (hi : op ≠ kwInsert) (hclose : db.closeResult = Except.ok ()) :
    executeModel J op queryText readOnlyMode maxResults table input db =
      ([ClientEvent.closeEv], Except.ok [[]]) := by
  unfold executeModel tryBody
  rw [if_neg hq, if_neg hi]
  simp [hclose]

/-- C9 witness: a delete operation value only closes and returns no items. -/
theorem c9_unknown_operation_witness :
    executeModel Nat opDelete [] false 0 tblProduct twoItems dbAllOK =
      ([ClientEvent.closeEv], Except.ok [[]]) :=
  c9_unknown_operation Nat opDelete [] false 0 tblProduct twoItems dbAllOK
    (by decide) (by decide) rfl

/-- C10: when the query or insert call fails and the close in the catch block
also fails, the error that propagates is the close error, for every original
error message. -/
theorem c10_close_error_masks (J : Type) (queryText : Str) (readOnlyMode : Bool)
    (maxResults : Nat) (table : Str) (input : List (Item J))
    (db dbi : DbOracle J) (m1 m2 m3 m4 : String)
    (hq : db.queryResult = Except.error m1) (hc : db.closeResult = Except.error m2)
    (hi : dbi.insertResult = Except.error m3) (hci : dbi.closeResult = Except.error m4) :
    (executeModel J kwQuery queryText false maxResults table input db).2 =
      Except.error (ExecErr.db m2)
    ∧ (executeModel J kwInsert queryText readOnlyMode maxResults table input dbi).2 =
      Except.error (ExecErr.db m4) := by
  constructor
  · unfold executeModel tryBody
    rw [if_pos rfl, if_neg (by simp)]
    simp [hq, hc]
  · unfold executeModel tryBody
    rw [if_neg (by decide), if_pos rfl]
    simp [hi, hci]

/-- C10 witness: both branches at concrete failing oracles propagate the
close failure message, not the original one. -/
theorem c10_close_error_masks_witness :
    (executeModel Nat kwQuery qSelOne false 0 tblProduct [] dbQueryCloseFail).2 =
      Except.error (ExecErr.db msgCloseFail)
    ∧ (executeModel Nat kwInsert qSelOne false 0 tblProduct twoItems dbInsertCloseFail).2 =
      Except.error (ExecErr.db msgCloseFail) :=
  c10_close_error_masks Nat qSelOne false 0 tblProduct twoItems
    dbQueryCloseFail dbInsertCloseFail msgQueryFail msgCloseFail
    msgInsertFail msgCloseFail rfl rfl rfl rfl
